import Mathlib

/-!
Shallow embedding of the earthquake/tsunami LINE alert bot's ingestion engine
(src/main.py, class Earthquake): the feed poller (check_update), the classifier
and the six type-specific bulletin parsers (get_earthquake_information and the
private parser methods), the area extractor (format_area, format_area_detailed,
select_area) and the dedup/sequencing pass (find_latest).

Modelling conventions:
* a parsed XML document (the result of xmltodict.parse) is an XVal: a string
  leaf, an ordered key/child association, or a list of nodes;
* Python subscripting d[k] with a string key is XVal.get, producing KeyError
  on a missing key and TypeError when the receiver is not a mapping; text
  nodes that the source stores into string slots are read with XVal.asStr;
* each parser method receives the parsed detail document as an Option XVal,
  where none stands for xmltodict.parse raising expat.ExpatError on the
  fetched body, and returns in the Except PyErr monad, an error being an
  uncaught Python exception propagating out of the method;
* the label-to-areas dictionaries built by select_area are insertion-ordered
  association lists over PyKey (a Python str or int key); inserting an
  existing key overwrites in place, as a Python dict does.
-/

/-- Python exception classes that the embedded code can raise. -/
inductive PyErr where
  | KeyError
  | TypeError
  | IndexError
  | AttributeError
  | UnboundLocalError
  | ExpatError
deriving DecidableEq, Repr

/-- A value produced by xmltodict.parse: string leaf, ordered mapping, or list. -/
inductive XVal where
  | str : String → XVal
  | obj : List (String × XVal) → XVal
  | list : List XVal → XVal

/-- Python d[k] for a string key k: KeyError when the key is absent from a
mapping, TypeError when the receiver is a str or a list. -/
def XVal.get (v : XVal) (k : String) : Except PyErr XVal :=
  match v with
  | .obj kvs =>
    match kvs.find? (fun p => p.1 = k) with
    | some p => .ok p.2
    | none => .error .KeyError
  | _ => .error .TypeError

/-- Reads a text node into a Lean String; the feed schema keeps all the text
nodes the source stores into string slots as plain strings, so a non-string
node is reported as TypeError. -/
def XVal.asStr : XVal → Except PyErr String
  | .str s => .ok s
  | _ => .error .TypeError

/-- Python str(value) on a parsed node: identity on a string leaf; on a nested
node Python renders the OrderedDict or list repr, a text that is never one of
the intensity scale tokens, which is the only way the source inspects it. -/
def XVal.pyStr : XVal → String
  | .str s => s
  | .obj _ => "OrderedDict(...)"
  | .list _ => "list(...)"

/-- Python `k in v`: key membership for a mapping, substring containment for a
str, element equality for a list. -/
def XVal.hasKey (v : XVal) (k : String) : Bool :=
  match v with
  | .obj kvs => kvs.any (fun p => p.1 = k)
  | .str s => (s.splitOn k).length ≥ 2
  | .list l => l.any (fun e => match e with | .str s => s = k | _ => false)

/-- Python iteration over a parsed node: a list yields its elements, a mapping
yields its keys (as strings), a str yields its characters. -/
def pyIter : XVal → List XVal
  | .list l => l
  | .obj kvs => kvs.map (fun p => .str p.1)
  | .str s => s.toList.map (fun c => .str (String.mk [c]))

/-- A Python dict key as used by this program: a str or an int. -/
inductive PyKey where
  | s : String → PyKey
  | i : Int → PyKey
deriving DecidableEq, Repr

/-- Rendering of a key inside an f-string. -/
def PyKey.fmt : PyKey → String
  | .s t => t
  | .i n => toString n

/-- Insertion-ordered Python dict with string values: overwrite in place when
the key exists, append otherwise. -/
def dictInsert (d : List (PyKey × String)) (k : PyKey) (v : String) :
    List (PyKey × String) :=
  if d.any (fun p => p.1 = k) then
    d.map (fun p => if p.1 = k then (k, v) else p)
  else d ++ [(k, v)]

/-- Python d[k] on a label dictionary: KeyError when the key is absent. -/
def dict_get (d : List (PyKey × String)) (k : PyKey) : Except PyErr String :=
  match d.find? (fun p => p.1 = k) with
  | some p => .ok p.2
  | none => .error .KeyError

/-- A scalar stored in an identity dict: the EventID string of a detail
document, or the literal int 0 of the fallback record. -/
inductive PyScalar where
  | s : String → PyScalar
  | i : Int → PyScalar
deriving DecidableEq, Repr

/-- The 'data' dict of a record: the deduplication identity. The fallback
record of the Seismic Intensity Bulletin parser adds a 'serial' key, so the
optional field keeps dict equality faithful. -/
structure Identity where
  event_id : PyScalar
  serial : Option Nat := none
  url : String
deriving DecidableEq, Repr

/-- The normalized record dict built by a parser (the 'text' dict of the
source); a missing dict key is a none field. -/
structure Record where
  title : String
  body : String
  magnitude : Option String := none
  area : Option String := none
  areas : Option (List String) := none
  max_seismic_intensity : Option String := none
  info : Option String := none
  data : Identity
deriving DecidableEq, Repr

/-- The per-item area list of Earthquake.__select_area: the 'Areas'/'Area'
node is a list of area mappings or a single mapping; each contributes its
'Name' text. -/
def area_names (areasArea : XVal) : Except PyErr (List String) :=
  match areasArea with
  | .list l => l.mapM (fun area => area.get "Name" >>= XVal.asStr)
  | v => do
    let n ← v.get "Name" >>= XVal.asStr
    pure [n]

/-- One iteration of Earthquake.__select_area's loop body: read the
Kind/Name label, collect the area names, join with the full-width comma, and
store label to joined string. -/
def select_area_item (area_info : List (PyKey × String)) (individual : XVal) :
    Except PyErr (List (PyKey × String)) := do
  let seismic_intensity ← individual.get "Kind" >>= (fun v => v.get "Name") >>= XVal.asStr
  let area ← individual.get "Areas" >>= (fun v => v.get "Area")
  let areas ← area_names area
  pure (dictInsert area_info (.s seismic_intensity) (String.intercalate "、" areas))

/-- Earthquake.__select_area: the information node is a list of Kind/Areas
items or a single item. -/
def select_area (information : XVal) : Except PyErr (List (PyKey × String)) :=
  match information with
  | .list l => l.foldlM select_area_item []
  | v => select_area_item [] v

/-- Earthquake.__format_area: the headline 'Information' node, taking only the
first element when it is a list (informations[0], IndexError on an empty
list), then its 'Item'. -/
def format_area (details : XVal) : Except PyErr (List (PyKey × String)) := do
  let informations ← details.get "Report" >>= (fun v => v.get "Head")
      >>= (fun v => v.get "Headline") >>= (fun v => v.get "Information")
  let information ←
    match informations with
    | .list [] => .error .IndexError
    | .list (x :: _) => x.get "Item"
    | v => v.get "Item"
  select_area information

/-- The scan of Earthquake.__format_area_detailed's for loop: the first
element whose '@type' equals the municipal sub-type label; a non-string
'@type' compares unequal without an error, as Python == does. -/
def find_municipal : List XVal → Except PyErr (Option XVal)
  | [] => .ok none
  | e :: rest => do
    let t ← e.get "@type"
    match t with
    | .str s =>
      if s = "震源・震度に関する情報（市町村等）" then .ok (some e)
      else find_municipal rest
    | _ => find_municipal rest

/-- Earthquake.__format_area_detailed. On a list, scan for the municipal
sub-type; when none matches the for-else returns the sentinel dict. When the
'Information' node is not a list, the source reads element['Item'], but the
local variable element is assigned only inside the list branch's loop, so
Python raises UnboundLocalError on this path. -/
def format_area_detailed (details : XVal) : Except PyErr (List (PyKey × String)) := do
  let informations ← details.get "Report" >>= (fun v => v.get "Head")
      >>= (fun v => v.get "Headline") >>= (fun v => v.get "Information")
  match informations with
  | .list l => do
    let found ← find_municipal l
    match found with
    | some element => do
      let infomation ← element.get "Item"
      select_area infomation
    | none => .ok [(.s "Null", "No data.")]
  | _ => .error .UnboundLocalError

/-- Earthquake.__earthquake_intensity_report. The try block covers the fetch,
the parse and the field extraction; the except clause catches ExpatError only,
substituting the fixed fallback record, so a detail body that is not
well-formed XML (detail = none) yields the fallback while an extraction error
inside a well-formed document still propagates. -/
def earthquake_intensity_report (url : String) (detail : Option XVal) :
    Except PyErr Record :=
  match detail with
  | none =>
    .ok { title := "震度速報", body := "No data.",
          areas := some ["[N/A] No data."],
          info := some "今後の情報に注意してください。",
          data := { event_id := .i 0, serial := some 1, url := url } }
  | some details_root => do
    let body ← details_root.get "Report" >>= (fun v => v.get "Head")
        >>= (fun v => v.get "Headline") >>= (fun v => v.get "Text") >>= XVal.asStr
    let area_info ← format_area details_root
    let area_text := area_info.map (fun p => "[" ++ p.1.fmt ++ "] " ++ p.2)
    let info ← details_root.get "Report" >>= (fun v => v.get "Body")
        >>= (fun v => v.get "Comments") >>= (fun v => v.get "ForecastComment")
        >>= (fun v => v.get "Text") >>= XVal.asStr
    let event_id ← details_root.get "Report" >>= (fun v => v.get "Head")
        >>= (fun v => v.get "EventID") >>= XVal.asStr
    .ok { title := "震度速報", body := body, areas := some area_text,
          info := some info,
          data := { event_id := .s event_id, serial := none, url := url } }

/-- Earthquake.__epicenter_information: no try block, every error propagates. -/
def epicenter_information (url : String) (detail : Option XVal) :
    Except PyErr Record :=
  match detail with
  | none => .error .ExpatError
  | some details_root => do
    let body ← details_root.get "Report" >>= (fun v => v.get "Head")
        >>= (fun v => v.get "Headline") >>= (fun v => v.get "Text") >>= XVal.asStr
    let magnitude ← details_root.get "Report" >>= (fun v => v.get "Body")
        >>= (fun v => v.get "Earthquake") >>= (fun v => v.get "jmx_eb:Magnitude")
        >>= (fun v => v.get "#text") >>= XVal.asStr
    let area ← details_root.get "Report" >>= (fun v => v.get "Body")
        >>= (fun v => v.get "Earthquake") >>= (fun v => v.get "Hypocenter")
        >>= (fun v => v.get "Area") >>= (fun v => v.get "Name") >>= XVal.asStr
    let info ← details_root.get "Report" >>= (fun v => v.get "Body")
        >>= (fun v => v.get "Comments") >>= (fun v => v.get "ForecastComment")
        >>= (fun v => v.get "Text") >>= XVal.asStr
    let event_id ← details_root.get "Report" >>= (fun v => v.get "Head")
        >>= (fun v => v.get "EventID") >>= XVal.asStr
    .ok { title := "震源に関する情報", body := body, magnitude := some magnitude,
          area := some area, info := some info,
          data := { event_id := .s event_id, serial := none, url := url } }

/-- The record assembly of
Earthquake.__information_on_epicenter_and_seismic_intensity, everything up to
the final severity test: fields in source order, max_seismic_intensity via
str(MaxInt), and the conditional 'areas' entry computed through
format_area_detailed when the headline carries an 'Information' key. -/
def ieb_build (url : String) (details_root : XVal) : Except PyErr Record := do
  let body ← details_root.get "Report" >>= (fun v => v.get "Head")
      >>= (fun v => v.get "Headline") >>= (fun v => v.get "Text") >>= XVal.asStr
  let magnitude ← details_root.get "Report" >>= (fun v => v.get "Body")
      >>= (fun v => v.get "Earthquake") >>= (fun v => v.get "jmx_eb:Magnitude")
      >>= (fun v => v.get "#text") >>= XVal.asStr
  let area ← details_root.get "Report" >>= (fun v => v.get "Body")
      >>= (fun v => v.get "Earthquake") >>= (fun v => v.get "Hypocenter")
      >>= (fun v => v.get "Area") >>= (fun v => v.get "Name") >>= XVal.asStr
  let maxInt ← details_root.get "Report" >>= (fun v => v.get "Body")
      >>= (fun v => v.get "Intensity") >>= (fun v => v.get "Observation")
      >>= (fun v => v.get "MaxInt")
  let info ← details_root.get "Report" >>= (fun v => v.get "Body")
      >>= (fun v => v.get "Comments") >>= (fun v => v.get "ForecastComment")
      >>= (fun v => v.get "Text") >>= XVal.asStr
  let event_id ← details_root.get "Report" >>= (fun v => v.get "Head")
      >>= (fun v => v.get "EventID") >>= XVal.asStr
  let headline ← details_root.get "Report" >>= (fun v => v.get "Head")
      >>= (fun v => v.get "Headline")
  let areas ←
    if headline.hasKey "Information" then do
      let area_info ← format_area_detailed details_root
      pure (some (area_info.map (fun p => "[" ++ p.1.fmt ++ "] " ++ p.2)))
    else
      pure none
  .ok { title := "震源・震度に関する情報", body := body,
        magnitude := some magnitude, area := some area, areas := areas,
        max_seismic_intensity := some (XVal.pyStr maxInt), info := some info,
        data := { event_id := .s event_id, serial := none, url := url } }

/-- The fixed scale values of the severity filter (source line 276). -/
def ieb_scale : List String := ["3", "4", "5-", "5+", "6-", "6+", "7"]

/-- Earthquake.__information_on_epicenter_and_seismic_intensity: builds the
record, then appends it to the cycle's output only when
text['max_seismic_intensity'] is one of the scale values; some r is an
appended record, none a dropped one. -/
def information_on_epicenter_and_seismic_intensity (url : String)
    (detail : Option XVal) : Except PyErr (Option Record) :=
  match detail with
  | none => .error .ExpatError
  | some details_root =>
    match ieb_build url details_root with
    | .error e => .error e
    | .ok text =>
      match text.max_seismic_intensity with
      | none => .error .KeyError
      | some m => if m ∈ ieb_scale then .ok (some text) else .ok none

/-- Earthquake.__earthquake_early_warning_forecast. -/
def earthquake_early_warning_forecast (url : String) (detail : Option XVal) :
    Except PyErr Record :=
  match detail with
  | none => .error .ExpatError
  | some details_root => do
    let body ← details_root.get "Report" >>= (fun v => v.get "Head")
        >>= (fun v => v.get "Headline") >>= (fun v => v.get "Text") >>= XVal.asStr
    let event_id ← details_root.get "Report" >>= (fun v => v.get "Head")
        >>= (fun v => v.get "EventID") >>= XVal.asStr
    .ok { title := "緊急地震速報(予報)", body := body,
          data := { event_id := .s event_id, serial := none, url := url } }

/-- Earthquake.__earthquake_early_warning_alarm: areas rendered as the plain
joined strings, labels discarded. -/
def earthquake_early_warning_alarm (url : String) (detail : Option XVal) :
    Except PyErr Record :=
  match detail with
  | none => .error .ExpatError
  | some details_root => do
    let body ← details_root.get "Report" >>= (fun v => v.get "Head")
        >>= (fun v => v.get "Headline") >>= (fun v => v.get "Text") >>= XVal.asStr
    let event_id ← details_root.get "Report" >>= (fun v => v.get "Head")
        >>= (fun v => v.get "EventID") >>= XVal.asStr
    let area_info ← format_area details_root
    let area_text := area_info.map (fun p => p.2)
    .ok { title := "緊急地震速報 (警報)", body := body, areas := some area_text,
          data := { event_id := .s event_id, serial := none, url := url } }

/-- Earthquake.__tsunami. When the headline carries an 'Information' key the
source evaluates area_info[0]: an int-keyed subscript of the str-keyed label
dictionary returned by format_area. -/
def tsunami (url : String) (detail : Option XVal) : Except PyErr Record :=
  match detail with
  | none => .error .ExpatError
  | some details_root => do
    let title ← details_root.get "Report" >>= (fun v => v.get "Head")
        >>= (fun v => v.get "Title") >>= XVal.asStr
    let body ← details_root.get "Report" >>= (fun v => v.get "Head")
        >>= (fun v => v.get "Headline") >>= (fun v => v.get "Text") >>= XVal.asStr
    let event_id ← details_root.get "Report" >>= (fun v => v.get "Head")
        >>= (fun v => v.get "EventID") >>= XVal.asStr
    let headline ← details_root.get "Report" >>= (fun v => v.get "Head")
        >>= (fun v => v.get "Headline")
    if headline.hasKey "Information" then do
      let area_info ← format_area details_root
      let area ← dict_get area_info (.i 0)
      .ok { title := title, body := body, area := some area,
            data := { event_id := .s event_id, serial := none, url := url } }
    else
      .ok { title := title, body := body,
            data := { event_id := .s event_id, serial := none, url := url } }

/-- The ambient inputs of one classification pass: the parsed feed body
(none when xmltodict.parse raises ExpatError on it) and, per detail URL, the
parsed detail document (none when its parse raises ExpatError). -/
structure Env where
  feed : Option XVal
  detail : String → Option XVal

/-- Attribute lookup on the module object bound to xmltodict.expat (pyexpat):
the module defines ExpatError; resolving any other attribute name raises
AttributeError. -/
def expat_module_attr (name : String) : Except PyErr Unit :=
  if name = "ExpatError" then .ok () else .error .AttributeError

/-- The body of the classifier loop of Earthquake.get_earthquake_information
for one feed entry: re.search evaluates first (TypeError on a non-string
title), then the exact-match chain, the tsunami substring branch last;
anything else is skipped. Parsed records accumulate in source order. -/
def dispatch_entry (env : Env) (acc : List Record) (child : XVal) :
    Except PyErr (List Record) := do
  let titleV ← child.get "title"
  let title ← XVal.asStr titleV
  let tsunami_hit := (title.splitOn "津波").length ≥ 2
  if title = "震度速報" then do
    let url ← child.get "link" >>= (fun v => v.get "@href") >>= XVal.asStr
    let r ← earthquake_intensity_report url (env.detail url)
    .ok (acc ++ [r])
  else if title = "震源に関する情報" then do
    let url ← child.get "link" >>= (fun v => v.get "@href") >>= XVal.asStr
    let r ← epicenter_information url (env.detail url)
    .ok (acc ++ [r])
  else if title = "震源・震度に関する情報" then do
    let url ← child.get "link" >>= (fun v => v.get "@href") >>= XVal.asStr
    let r ← information_on_epicenter_and_seismic_intensity url (env.detail url)
    .ok (acc ++ r.toList)
  else if title = "緊急地震速報（予報）" then do
    let url ← child.get "link" >>= (fun v => v.get "@href") >>= XVal.asStr
    let r ← earthquake_early_warning_forecast url (env.detail url)
    .ok (acc ++ [r])
  else if title = "緊急地震速報（警報）" then do
    let url ← child.get "link" >>= (fun v => v.get "@href") >>= XVal.asStr
    let r ← earthquake_early_warning_alarm url (env.detail url)
    .ok (acc ++ [r])
  else if tsunami_hit then do
    let url ← child.get "link" >>= (fun v => v.get "@href") >>= XVal.asStr
    let r ← tsunami url (env.detail url)
    .ok (acc ++ [r])
  else
    .ok acc

/-- Earthquake.get_earthquake_information: resets formated_text, parses the
feed body, and runs the classifier loop. When the parse raises ExpatError the
except clause's class expression xmltodict.expat.ExpartError is resolved at
that moment; the name does not exist on the module, so the lookup itself
raises. Were the class found, the handler would return with zero records. -/
def get_earthquake_information (env : Env) : Except PyErr (List Record) :=
  match env.feed with
  | none =>
    match expat_module_attr "ExpartError" with
    | .ok _ => .ok []
    | .error e => .error e
  | some xml_root => do
    let entries ← xml_root.get "feed" >>= (fun v => v.get "entry")
    (pyIter entries).foldlM (dispatch_entry env) []

/-- Modelled from the spec: format_report (module report, not part of src/)
is the Report Sequence Ledger collaborator. It is keyed by the record's exact
body text; the count for a body starts at 1 on first sight and is incremented
on every later call with that body; the new count is returned and the updated
ledger persisted. The ledger is an insertion-ordered body-to-count mapping. -/
def format_report (ledger : List (String × Nat)) (body : String) :
    Nat × List (String × Nat) :=
  match ledger with
  | [] => (1, [(body, 1)])
  | q :: rest =>
    if q.1 = body then (q.2 + 1, (q.1, q.2 + 1) :: rest)
    else
      let r := format_report rest body
      (r.1, q :: r.2)

/-- Lines 140-144 of find_latest: for the two sequencable categories, consult
format_report with the record's body and, when the resulting count exceeds 1,
append the literal report-number suffix to the record's title. -/
def apply_sequence (ledger : List (String × Nat)) (individual : Record) :
    Record × List (String × Nat) :=
  if individual.title = "震度速報" ∨ individual.title = "震源・震度に関する情報" then
    let fr := format_report ledger individual.body
    (if fr.1 > 1 then
       { individual with title := individual.title ++ "\n第" ++ toString fr.1 ++ "報" }
     else individual, fr.2)
  else (individual, ledger)

/-- The mutable state of one find_latest pass: post_message accumulates the
emitted records; latest_information is the identity list loaded from
latest_earthquake_info.json — the source binds it to the same object that the
membership test reads, so appends are visible to later iterations; the ledger
is the report-sequence store behind format_report. -/
structure FLState where
  post_message : List Record
  latest_information : List Identity
  ledger : List (String × Nat)
deriving DecidableEq, Repr

/-- One iteration of the find_latest loop: skip the record when its 'data'
dict is already present, otherwise sequence it, emit it, and append its
identity to the (aliased) identity list. -/
def find_latest_step (st : FLState) (individual : Record) : FLState :=
  if individual.data ∈ st.latest_information then st
  else
    { post_message := st.post_message ++ [(apply_sequence st.ledger individual).1],
      latest_information :=
        st.latest_information ++ [(apply_sequence st.ledger individual).1.data],
      ledger := (apply_sequence st.ledger individual).2 }

/-- Earthquake.find_latest: reverse the candidates (feed order is
newest-first), then run the loop from the loaded identity list; the final
latest_information field is what __save_buffer persists. -/
def find_latest (persisted : List Identity) (ledger : List (String × Nat))
    (formated_text : List Record) : FLState :=
  formated_text.reverse.foldl find_latest_step
    { post_message := [], latest_information := persisted, ledger := ledger }

/-- The identities of the records a find_latest pass hands to post_line. -/
def postIdentities (st : FLState) : List Identity :=
  st.post_message.map (fun r => r.data)

/-- The count stored for a body in the report-sequence ledger. -/
def ledger_lookup (ledger : List (String × Nat)) (b : String) : Option Nat :=
  (ledger.find? (fun p => p.1 = b)).map (fun p => p.2)

/-- Earthquake.check_update over the persisted checkpoint (the 'latest' slot
of last_acquisition.json; none covers both a missing file and the null first
write) and the fetch outcome (none = requests raising ConnectionError, some h
= the Last-Modified header). Returns the is_update flag and the checkpoint
after the call. -/
def check_update (checkpoint : Option String) (fetched : Option String) :
    Bool × Option String :=
  match fetched with
  | none => (false, checkpoint)
  | some last_modified =>
    if some last_modified ≠ checkpoint then (true, some last_modified)
    else (false, checkpoint)

/-- One further polling cycle's find_latest over a single fresh candidate,
starting from the state a previous cycle persisted. -/
def next_cycle (st : FLState) (r : Record) : FLState :=
  find_latest st.latest_information st.ledger [r]

/-- The headline body text of the representative Hypocenter and Seismic
Intensity detail document below. -/
def ieb_body : String := "地震による被害の心配はありません。"

/-- A representative Hypocenter and Seismic Intensity Information detail
document, parameterized by the MaxInt text; the headline carries no
'Information' block. -/
def ieb_doc (m : String) : XVal :=
  .obj [("Report", .obj [
    ("Head", .obj [
      ("Headline", .obj [("Text", .str ieb_body)]),
      ("EventID", .str "20200101120000")]),
    ("Body", .obj [
      ("Earthquake", .obj [
        ("jmx_eb:Magnitude", .obj [("#text", .str "5.0")]),
        ("Hypocenter", .obj [("Area", .obj [("Name", .str "宮城県沖")])])]),
      ("Intensity", .obj [("Observation", .obj [("MaxInt", .str m)])]),
      ("Comments", .obj [("ForecastComment", .obj [("Text", .str "今後の情報に注意。")])])])])]

/-- The record ieb_build extracts from ieb_doc m at URL "u". -/
def ieb_record (m : String) : Record :=
  { title := "震源・震度に関する情報", body := ieb_body,
    magnitude := some "5.0", area := some "宮城県沖", areas := none,
    max_seismic_intensity := some m, info := some "今後の情報に注意。",
    data := { event_id := .s "20200101120000", serial := none, url := "u" } }

/-- A polling environment whose feed holds exactly one entry, a Hypocenter
and Seismic Intensity Information bulletin linking to "u", whose detail
document is ieb_doc m. -/
def ieb_env (m : String) : Env :=
  { feed := some (.obj [("feed", .obj [("entry", .list [
      .obj [("title", .str "震源・震度に関する情報"),
            ("link", .obj [("@href", .str "u")])]])])]),
    detail := fun u => if u = "u" then some (ieb_doc m) else none }

/-- A tsunami warning detail document whose headline carries an Information
block (one Kind/Areas item). -/
def tsunami_doc_info : XVal :=
  .obj [("Report", .obj [
    ("Head", .obj [
      ("Title", .str "津波警報・注意報・予報a"),
      ("Headline", .obj [
        ("Text", .str "津波警報を発表しました。"),
        ("Information", .obj [("Item", .obj [
          ("Kind", .obj [("Name", .str "津波警報")]),
          ("Areas", .obj [("Area", .obj [("Name", .str "北海道太平洋沿岸東部")])])])])]),
      ("EventID", .str "20200101130000")])])]

/-- A tsunami forecast detail document whose headline carries no Information
block. -/
def tsunami_doc_noinfo : XVal :=
  .obj [("Report", .obj [
    ("Head", .obj [
      ("Title", .str "津波予報"),
      ("Headline", .obj [("Text", .str "若干の海面変動が予想されます。")]),
      ("EventID", .str "20200101140000")])])]

/-- A detail document whose headline 'Information' node is a single object of
the municipal sub-type (not a one-element list). -/
def detailed_doc_single : XVal :=
  .obj [("Report", .obj [
    ("Head", .obj [
      ("Headline", .obj [
        ("Information", .obj [
          ("@type", .str "震源・震度に関する情報（市町村等）"),
          ("Item", .obj [
            ("Kind", .obj [("Name", .str "震度４")]),
            ("Areas", .obj [("Area", .obj [("Name", .str "仙台市")])])])])])])])]

/-- A detail document whose headline 'Information' node is a list none of
whose elements carries the municipal sub-type label. -/
def detailed_doc_nomatch : XVal :=
  .obj [("Report", .obj [
    ("Head", .obj [
      ("Headline", .obj [
        ("Information", .list [
          .obj [("@type", .str "震源・震度に関する情報（細分区域）"),
                ("Item", .obj [
                  ("Kind", .obj [("Name", .str "震度４")]),
                  ("Areas", .obj [("Area", .obj [("Name", .str "宮城県中部")])])])]])])])])]

/-- A detail document whose headline 'Information' list does carry the
municipal sub-type. -/
def detailed_doc_match : XVal :=
  .obj [("Report", .obj [
    ("Head", .obj [
      ("Headline", .obj [
        ("Information", .list [
          .obj [("@type", .str "震源・震度に関する情報（細分区域）"),
                ("Item", .obj [
                  ("Kind", .obj [("Name", .str "震度４")]),
                  ("Areas", .obj [("Area", .obj [("Name", .str "宮城県中部")])])])],
          .obj [("@type", .str "震源・震度に関する情報（市町村等）"),
                ("Item", .obj [
                  ("Kind", .obj [("Name", .str "震度４")]),
                  ("Areas", .obj [("Area", .list [
                    .obj [("Name", .str "仙台市")],
                    .obj [("Name", .str "石巻市")]])])])]])])])])]

/-- Identity of a bulletin already recorded in a previous cycle. -/
def idA : Identity := { event_id := .s "20190101000000", serial := none, url := "u1" }

/-- A candidate record re-presenting idA. -/
def recA : Record := { title := "震度速報", body := "再掲載の本文", data := idA }

/-- Three distinct candidates sharing one body text, sequencable category. -/
def recB1 : Record :=
  { title := "震度速報", body := "同一の本文",
    data := { event_id := .s "E1", serial := none, url := "b1" } }

def recB2 : Record :=
  { title := "震度速報", body := "同一の本文",
    data := { event_id := .s "E2", serial := none, url := "b2" } }

def recB3 : Record :=
  { title := "震度速報", body := "同一の本文",
    data := { event_id := .s "E3", serial := none, url := "b3" } }

/-- C2: the source intends a silent no-op on a malformed feed body, but the
except clause names xmltodict.expat.ExpartError, an attribute the expat
module does not define, so resolving the handler class raises AttributeError
and the cycle crashes instead of returning silently with zero records; the
correctly spelled name would have resolved. -/
theorem malformed_feed_attribute_error (fetch : String → Option XVal) :
    get_earthquake_information { feed := none, detail := fetch } =
      .error .AttributeError
  ∧ expat_module_attr "ExpartError" = .error .AttributeError
  ∧ expat_module_attr "ExpatError" = .ok () :=
  ⟨rfl, rfl, rfl⟩

/-- C3: a tsunami bulletin whose headline carries an Information block does
not get the first entry's area text: the source indexes the str-keyed label
dictionary with the int 0, so the parser raises KeyError and no record is
produced. Without an Information block the record is produced with the area
key absent and no error. The third conjunct exhibits the extractor output the
first entry's area text would have come from. -/
theorem tsunami_area_indexing :
    tsunami "u" (some tsunami_doc_info) = .error .KeyError
  ∧ tsunami "u" (some tsunami_doc_noinfo) =
      .ok { title := "津波予報", body := "若干の海面変動が予想されます。",
            data := { event_id := .s "20200101140000", serial := none, url := "u" } }
  ∧ format_area tsunami_doc_info = .ok [(.s "津波警報", "北海道太平洋沿岸東部")] :=
  ⟨rfl, rfl, rfl⟩

/-- C4: when the headline 'Information' node is a single object the source
reads element['Item'] with the local variable element never assigned on that
path, so the detailed extractor raises UnboundLocalError instead of returning
the mapping built from the single element's Item; both list paths (municipal
sub-type found, and the for-else sentinel) behave as specified. -/
theorem detailed_area_single_object :
    format_area_detailed detailed_doc_single = .error .UnboundLocalError
  ∧ format_area_detailed detailed_doc_nomatch = .ok [(.s "Null", "No data.")]
  ∧ format_area_detailed detailed_doc_match = .ok [(.s "震度４", "仙台市、石巻市")] :=
  ⟨rfl, rfl, rfl⟩

/-- C6: a Seismic Intensity Bulletin detail document that fails to parse is
recovered into the fixed fallback record (body "No data.", one placeholder
area entry, the fixed advisory info text, event id the literal int 0 plus a
serial of 1), while each of the other five parsers propagates the parse
failure unhandled. -/
theorem intensity_report_fallback_unique :
    (∀ url : String, earthquake_intensity_report url none =
      .ok { title := "震度速報", body := "No data.",
            areas := some ["[N/A] No data."],
            info := some "今後の情報に注意してください。",
            data := { event_id := .i 0, serial := some 1, url := url } })
  ∧ (∀ url : String, epicenter_information url none = .error .ExpatError)
  ∧ (∀ url : String,
      information_on_epicenter_and_seismic_intensity url none = .error .ExpatError)
  ∧ (∀ url : String, earthquake_early_warning_forecast url none = .error .ExpatError)
  ∧ (∀ url : String, earthquake_early_warning_alarm url none = .error .ExpatError)
  ∧ (∀ url : String, tsunami url none = .error .ExpatError) :=
  ⟨fun _ => rfl, fun _ => rfl, fun _ => rfl, fun _ => rfl, fun _ => rfl, fun _ => rfl⟩

/-- C9: check_update returns true and persists the fetched timestamp exactly
when it differs from the stored checkpoint (absence included), returns false
with no mutation on a connection failure, and false with no write on an
unchanged timestamp; hence two calls under an unchanged header both return
false and the second call never rewrites the checkpoint. -/
theorem check_update_idempotent :
    ∀ (cp : Option String) (h : String),
      check_update cp none = (false, cp)
    ∧ check_update cp (some h) =
        (if some h = cp then (false, cp) else (true, some h))
    ∧ check_update (some h) (some h) = (false, some h)
    ∧ check_update (check_update (some h) (some h)).2 (some h) = (false, some h) := by
  intro cp h
  refine ⟨rfl, ?_, ?_, ?_⟩
  · by_cases hc : some h = cp <;> simp [check_update, hc]
  · simp [check_update]
  · simp [check_update]

/-- Sequencing rewrites only the title: the identity dict is untouched. -/
lemma apply_sequence_data (ledger : List (String × Nat)) (r : Record) :
    (apply_sequence ledger r).1.data = r.data := by
  simp only [apply_sequence]
  split
  · split <;> rfl
  · rfl

/-- Loop equation for a candidate whose identity is already present. -/
lemma find_latest_step_skip (st : FLState) (x : Record)
    (h : x.data ∈ st.latest_information) : find_latest_step st x = st := by
  unfold find_latest_step
  rw [if_pos h]

/-- Loop equation for a fresh candidate. -/
lemma find_latest_step_emit (st : FLState) (x : Record)
    (h : x.data ∉ st.latest_information) :
    find_latest_step st x =
      { post_message := st.post_message ++ [(apply_sequence st.ledger x).1],
        latest_information :=
          st.latest_information ++ [(apply_sequence st.ledger x).1.data],
        ledger := (apply_sequence st.ledger x).2 } := by
  unfold find_latest_step
  rw [if_neg h]

/-- An identity present in the loop state stays present after one step. -/
lemma find_latest_step_latest_mono (st : FLState) (x : Record) (i : Identity)
    (hi : i ∈ st.latest_information) :
    i ∈ (find_latest_step st x).latest_information := by
  by_cases h : x.data ∈ st.latest_information
  · rw [find_latest_step_skip st x h]
    exact hi
  · rw [find_latest_step_emit st x h]
    exact List.mem_append_left _ hi

/-- Invariant behind C1: no record whose identity is already in the loop's
identity list is ever appended to post_message. -/
lemma find_latest_foldl_avoid (l : List Record) (st : FLState) (i : Identity)
    (hi : i ∈ st.latest_information)
    (hpost : ∀ r ∈ st.post_message, r.data ≠ i) :
    ∀ r ∈ (l.foldl find_latest_step st).post_message, r.data ≠ i := by
  induction l generalizing st with
  | nil => simpa using hpost
  | cons x xs ih =>
    rw [List.foldl_cons]
    apply ih
    · exact find_latest_step_latest_mono st x i hi
    · intro r hr
      by_cases hmem : x.data ∈ st.latest_information
      · rw [find_latest_step_skip st x hmem] at hr
        exact hpost r hr
      · rw [find_latest_step_emit st x hmem] at hr
        dsimp at hr
        rcases List.mem_append.mp hr with h | h
        · exact hpost r h
        · rcases List.mem_singleton.mp h with rfl
          rw [apply_sequence_data]
          exact fun heq => hmem (by rwa [heq])

/-- C1: an identity already present in the persisted identity list when
find_latest loads it never appears among the cycle's posted records, whatever
the other candidates and the ledger are; the persisted list is arbitrary, so
this covers any earlier cycle and any earlier process lifetime. -/
theorem dedup_totality (cands : List Record) (persisted : List Identity)
    (ledger : List (String × Nat)) (i : Identity) (hi : i ∈ persisted) :
    i ∉ postIdentities (find_latest persisted ledger cands) := by
  unfold postIdentities find_latest
  intro hmem
  rcases List.mem_map.mp hmem with ⟨r, hr, hdata⟩
  exact find_latest_foldl_avoid cands.reverse _ i hi (by simp) r hr hdata

/-- The dedup guarantee of C1 applied to a concrete re-presented candidate. -/
theorem dedup_totality_witness :
    idA ∉ postIdentities (find_latest [idA] [] [recA]) :=
  dedup_totality [recA] [idA] [] idA (List.mem_singleton.mpr rfl)

/-- Invariant behind C10: the posted identities stay pairwise distinct and
each is recorded in the loop's identity list. -/
lemma find_latest_foldl_nodup (l : List Record) (st : FLState)
    (hnd : (st.post_message.map (fun r => r.data)).Nodup)
    (hsub : ∀ r ∈ st.post_message, r.data ∈ st.latest_information) :
    ((l.foldl find_latest_step st).post_message.map (fun r => r.data)).Nodup := by
  induction l generalizing st with
  | nil => simpa using hnd
  | cons x xs ih =>
    rw [List.foldl_cons]
    by_cases hmem : x.data ∈ st.latest_information
    · rw [find_latest_step_skip st x hmem]
      exact ih st hnd hsub
    · rw [find_latest_step_emit st x hmem]
      apply ih
      · dsimp
        rw [List.map_append]
        rw [List.nodup_append]
        refine ⟨hnd, by simp, ?_⟩
        intro a ha hb
        rcases List.mem_map.mp ha with ⟨r, hr, rfl⟩
        rcases List.mem_map.mp hb with ⟨r2, hr2, heq⟩
        rcases List.mem_singleton.mp hr2 with rfl
        rw [apply_sequence_data] at heq
        exact hmem (by rw [heq]; exact hsub r hr)
      · intro r hr
        dsimp at hr ⊢
        rcases List.mem_append.mp hr with h | h
        · exact List.mem_append_left _ (hsub r h)
        · rcases List.mem_singleton.mp h with rfl
          exact List.mem_append_right _ (List.mem_singleton.mpr rfl)

/-- C10: within a single find_latest pass the emitted records carry pairwise
distinct identities: once a record is accepted its identity is appended to
the very list the membership test reads (the loaded persisted list is
aliased, not copied), so a duplicate later in the same cycle is skipped. -/
theorem intra_cycle_dedup (persisted : List Identity)
    (ledger : List (String × Nat)) (cands : List Record) :
    (postIdentities (find_latest persisted ledger cands)).Nodup := by
  unfold postIdentities find_latest
  apply find_latest_foldl_nodup
  · simp
  · simp

/-- C7: a Hypocenter and Seismic Intensity Information record is appended
exactly when its max intensity is one of the seven fixed scale tokens: every
appended record carries such a token, and on the representative document
family each scale token is kept while any other string (such as "2" or "5")
produces no record at all. -/
theorem severity_filter_exact :
    (∀ (url : String) (doc : XVal) (r : Record),
      information_on_epicenter_and_seismic_intensity url (some doc) =
        .ok (some r) →
      r.max_seismic_intensity ∈ ieb_scale.map some)
  ∧ (∀ m : String,
      information_on_epicenter_and_seismic_intensity "u" (some (ieb_doc m)) =
        .ok (if m ∈ ieb_scale then some (ieb_record m) else none)) := by
  constructor
  · intro url doc r h
    simp only [information_on_epicenter_and_seismic_intensity] at h
    split at h
    · exact absurd h (by simp)
    · split at h
      · exact absurd h (by simp)
      · rename_i text heq m hm
        split at h
        · rename_i hs
          injection h with h1
          injection h1 with h2
          rw [← h2, hm]
          exact List.mem_map.mpr ⟨m, hs, rfl⟩
        · exact absurd h (by simp)
  · intro m
    have hb : ieb_build "u" (ieb_doc m) = .ok (ieb_record m) := rfl
    simp only [information_on_epicenter_and_seismic_intensity]
    rw [hb]
    by_cases hs : m ∈ ieb_scale <;> simp [ieb_record, hs]

/-- The kept direction of C7 at a concrete appended record. -/
theorem severity_filter_exact_witness :
    (ieb_record "3").max_seismic_intensity ∈ ieb_scale.map some :=
  severity_filter_exact.1 "u" (ieb_doc "3") (ieb_record "3") (by rfl)

/-- Incrementing one body's count leaves every other body's count alone. -/
lemma format_report_other (led : List (String × Nat)) (b2 b : String)
    (h : b2 ≠ b) :
    ledger_lookup (format_report led b2).2 b = ledger_lookup led b := by
  induction led with
  | nil => simp [format_report, ledger_lookup, h]
  | cons q rest ih =>
    by_cases hq : q.1 = b2
    · simp only [format_report, if_pos hq]
      have hqb : ¬ q.1 = b := by rw [hq]; exact h
      simp [ledger_lookup, List.find?_cons, hqb]
    · simp only [format_report, if_neg hq]
      by_cases hqb : q.1 = b
      · simp [ledger_lookup, List.find?_cons, hqb]
      · simpa [ledger_lookup, List.find?_cons, hqb] using ih

/-- The sequencing step touches at most the processed record's own body. -/
lemma apply_sequence_ledger_other (ledger : List (String × Nat)) (r : Record)
    (b : String) (h : r.body ≠ b) :
    ledger_lookup (apply_sequence ledger r).2 b = ledger_lookup ledger b := by
  simp only [apply_sequence]
  split
  · exact format_report_other ledger r.body b h
  · rfl

/-- A finalize pass leaves untouched the ledger count of any body that none
of the processed candidates carries. -/
lemma find_latest_foldl_ledger_other (l : List Record) (st : FLState)
    (b : String) (h : ∀ r ∈ l, r.body ≠ b) :
    ledger_lookup (l.foldl find_latest_step st).ledger b =
      ledger_lookup st.ledger b := by
  induction l generalizing st with
  | nil => rfl
  | cons x xs ih =>
    rw [List.foldl_cons]
    rw [ih _ (fun r hr => h r (List.mem_cons_of_mem x hr))]
    by_cases hmem : x.data ∈ st.latest_information
    · rw [find_latest_step_skip st x hmem]
    · rw [find_latest_step_emit st x hmem]
      exact apply_sequence_ledger_other st.ledger x b (h x (List.mem_cons_self x xs))

/-- C5 fails on the code: a Hypocenter and Seismic Intensity candidate whose
max intensity is "2" is dropped inside the parser, so the cycle's candidate
list comes out empty and the finalize pass over it stores no count at all for
the candidate's body text — the report-sequence ledger is not incremented. -/
theorem weak_intensity_not_counted_cex :
    get_earthquake_information (ieb_env "2") = .ok []
  ∧ ledger_lookup (find_latest [] [] []).ledger ieb_body = none :=
  ⟨rfl, rfl⟩

/-- C5 amended: a Hypocenter and Seismic Intensity candidate whose max
intensity is below the severity threshold is suppressed by the parser before
finalization ever sees it, so the report-sequence ledger count for its body
text is not incremented during the cycle: the parser emits no record, the
cycle's candidate list stays empty, and a finalize pass over candidates none
of which carries that body leaves the body's count untouched. -/
theorem weak_intensity_not_counted (m : String) (hm : m ∉ ieb_scale)
    (persisted : List Identity) (ledger : List (String × Nat))
    (cands : List Record) (hb : ∀ r ∈ cands, r.body ≠ ieb_body) :
    information_on_epicenter_and_seismic_intensity "u" (some (ieb_doc m)) =
      .ok none
  ∧ get_earthquake_information (ieb_env m) = .ok []
  ∧ ledger_lookup (find_latest persisted ledger cands).ledger ieb_body =
      ledger_lookup ledger ieb_body := by
  have h1 : information_on_epicenter_and_seismic_intensity "u"
      (some (ieb_doc m)) = .ok none := by
    have hb2 : ieb_build "u" (ieb_doc m) = .ok (ieb_record m) := rfl
    simp only [information_on_epicenter_and_seismic_intensity]
    rw [hb2]
    simp [ieb_record, hm]
  refine ⟨h1, ?_, ?_⟩
  · rw [show get_earthquake_information (ieb_env m) =
        Bind.bind (Bind.bind
          (information_on_epicenter_and_seismic_intensity "u" (some (ieb_doc m)))
          (fun r => Except.ok (([] : List Record) ++ r.toList)))
          (fun b => pure b) from rfl, h1]
    rfl
  · unfold find_latest
    exact find_latest_foldl_ledger_other cands.reverse _ ieb_body
      (fun r hr => hb r (List.mem_reverse.mp hr))

/-- The amended C5 applied at the concrete suppressed intensity "2". -/
theorem weak_intensity_not_counted_witness :
    information_on_epicenter_and_seismic_intensity "u" (some (ieb_doc "2")) =
      .ok none
  ∧ get_earthquake_information (ieb_env "2") = .ok []
  ∧ ledger_lookup (find_latest [] [] []).ledger ieb_body =
      ledger_lookup [] ieb_body :=
  weak_intensity_not_counted "2" (by decide) [] [] [] (by simp)

/-- First sight of a body: the ledger count starts at 1. -/
lemma format_report_fresh (led : List (String × Nat)) (b : String)
    (h : led.find? (fun p => p.1 = b) = none) :
    format_report led b = (1, led ++ [(b, 1)]) := by
  induction led with
  | nil => rfl
  | cons q rest ih =>
    by_cases hq : q.1 = b
    · rw [List.find?_cons_of_pos _ (by simp [hq])] at h
      exact absurd h (by simp)
    · rw [List.find?_cons_of_neg _ (by simp [hq])] at h
      simp only [format_report, if_neg hq]
      rw [ih h]
      rfl

/-- A later sight of a body first seen with count n: the count becomes n+1. -/
lemma format_report_snoc (led : List (String × Nat)) (b : String) (n : Nat)
    (h : led.find? (fun p => p.1 = b) = none) :
    format_report (led ++ [(b, n)]) b = (n + 1, led ++ [(b, n + 1)]) := by
  induction led with
  | nil => simp [format_report]
  | cons q rest ih =>
    by_cases hq : q.1 = b
    · rw [List.find?_cons_of_pos _ (by simp [hq])] at h
      exact absurd h (by simp)
    · rw [List.find?_cons_of_neg _ (by simp [hq])] at h
      simp only [List.cons_append, format_report, if_neg hq, List.append_eq]
      rw [ih h]

/-- The sequencing branch taken for the two sequencable categories. -/
lemma apply_sequence_seq (ledger : List (String × Nat)) (r : Record)
    (ht : r.title = "震度速報" ∨ r.title = "震源・震度に関する情報") :
    apply_sequence ledger r =
      (if (format_report ledger r.body).1 > 1 then
         { r with title :=
             r.title ++ "\n第" ++ toString (format_report ledger r.body).1 ++ "報" }
       else r, (format_report ledger r.body).2) := by
  simp only [apply_sequence, if_pos ht]

/-- A one-candidate finalize pass over a fresh identity. -/
lemma find_latest_singleton (persisted : List Identity)
    (ledger : List (String × Nat)) (r : Record) (h : r.data ∉ persisted) :
    find_latest persisted ledger [r] =
      { post_message := [(apply_sequence ledger r).1],
        latest_information := persisted ++ [(apply_sequence ledger r).1.data],
        ledger := (apply_sequence ledger r).2 } := by
  unfold find_latest
  rw [show ([r] : List Record).reverse = [r] from rfl]
  rw [List.foldl_cons, List.foldl_nil]
  exact find_latest_step_emit _ r h

/-- C8: three distinct fresh candidates with one body text and a sequencable
category, finalized in three successive cycles, come out unsuffixed, with the
report-2 suffix, and with the report-3 suffix respectively: the body's count
starts at 1 on first sight and the title is suffixed only when the count
exceeds 1. -/
theorem sequence_monotonicity (r1 r2 r3 : Record) (persisted : List Identity)
    (ledger : List (String × Nat))
    (ht1 : r1.title = "震度速報" ∨ r1.title = "震源・震度に関する情報")
    (ht2 : r2.title = r1.title) (ht3 : r3.title = r1.title)
    (hb2 : r2.body = r1.body) (hb3 : r3.body = r1.body)
    (hled : ledger.find? (fun p => p.1 = r1.body) = none)
    (h1 : r1.data ∉ persisted)
    (h2 : r2.data ∉ persisted) (h21 : r2.data ≠ r1.data)
    (h3 : r3.data ∉ persisted) (h31 : r3.data ≠ r1.data) (h32 : r3.data ≠ r2.data) :
    (find_latest persisted ledger [r1]).post_message = [r1]
  ∧ (next_cycle (find_latest persisted ledger [r1]) r2).post_message =
      [{ r2 with title := r2.title ++ "\n第2報" }]
  ∧ (next_cycle (next_cycle (find_latest persisted ledger [r1]) r2) r3).post_message =
      [{ r3 with title := r3.title ++ "\n第3報" }] := by
  have ht2' : r2.title = "震度速報" ∨ r2.title = "震源・震度に関する情報" := by
    rw [ht2]; exact ht1
  have ht3' : r3.title = "震度速報" ∨ r3.title = "震源・震度に関する情報" := by
    rw [ht3]; exact ht1
  have fr1 := format_report_fresh ledger r1.body hled
  have as1 : apply_sequence ledger r1 = (r1, ledger ++ [(r1.body, 1)]) := by
    rw [apply_sequence_seq ledger r1 ht1, fr1]
    simp
  have hs1 : find_latest persisted ledger [r1] =
      { post_message := [r1], latest_information := persisted ++ [r1.data],
        ledger := ledger ++ [(r1.body, 1)] } := by
    rw [find_latest_singleton persisted ledger r1 h1, as1]
  have h2' : r2.data ∉ persisted ++ [r1.data] := by
    simp [List.mem_append, h2, h21]
  have fr2 : format_report (ledger ++ [(r1.body, 1)]) r2.body =
      (2, ledger ++ [(r1.body, 2)]) := by
    rw [hb2]; exact format_report_snoc ledger r1.body 1 hled
  have hsuf2 : ∀ a : String, a ++ "\n第" ++ toString (2 : Nat) ++ "報" = a ++ "\n第2報" := by
    intro a
    rw [String.append_assoc, String.append_assoc]
    rfl
  have hsuf3 : ∀ a : String, a ++ "\n第" ++ toString (3 : Nat) ++ "報" = a ++ "\n第3報" := by
    intro a
    rw [String.append_assoc, String.append_assoc]
    rfl
  have as2 : apply_sequence (ledger ++ [(r1.body, 1)]) r2 =
      ({ r2 with title := r2.title ++ "\n第2報" }, ledger ++ [(r1.body, 2)]) := by
    rw [apply_sequence_seq _ r2 ht2', fr2]
    dsimp only
    rw [if_pos (by norm_num : (2 : Nat) > 1), hsuf2 r2.title]
  have hs2 : next_cycle (find_latest persisted ledger [r1]) r2 =
      { post_message := [{ r2 with title := r2.title ++ "\n第2報" }],
        latest_information := (persisted ++ [r1.data]) ++ [r2.data],
        ledger := ledger ++ [(r1.body, 2)] } := by
    unfold next_cycle
    rw [hs1]
    dsimp only
    rw [find_latest_singleton _ _ r2 h2', as2]
  have h3' : r3.data ∉ (persisted ++ [r1.data]) ++ [r2.data] := by
    simp [List.mem_append, h3, h31, h32]
  have fr3 : format_report (ledger ++ [(r1.body, 2)]) r3.body =
      (3, ledger ++ [(r1.body, 3)]) := by
    rw [hb3]; exact format_report_snoc ledger r1.body 2 hled
  have as3 : apply_sequence (ledger ++ [(r1.body, 2)]) r3 =
      ({ r3 with title := r3.title ++ "\n第3報" }, ledger ++ [(r1.body, 3)]) := by
    rw [apply_sequence_seq _ r3 ht3', fr3]
    dsimp only
    rw [if_pos (by norm_num : (3 : Nat) > 1), hsuf3 r3.title]
  have hs3 : next_cycle (next_cycle (find_latest persisted ledger [r1]) r2) r3 =
      { post_message := [{ r3 with title := r3.title ++ "\n第3報" }],
        latest_information := ((persisted ++ [r1.data]) ++ [r2.data]) ++ [r3.data],
        ledger := ledger ++ [(r1.body, 3)] } := by
    rw [hs2]
    unfold next_cycle
    dsimp only
    rw [find_latest_singleton _ _ r3 h3', as3]
  exact ⟨by rw [hs1], by rw [hs2], by rw [hs3]⟩

/-- The sequencing guarantee of C8 at three concrete candidates. -/
theorem sequence_monotonicity_witness :
    (find_latest [] [] [recB1]).post_message = [recB1]
  ∧ (next_cycle (find_latest [] [] [recB1]) recB2).post_message =
      [{ recB2 with title := recB2.title ++ "\n第2報" }]
  ∧ (next_cycle (next_cycle (find_latest [] [] [recB1]) recB2) recB3).post_message =
      [{ recB3 with title := recB3.title ++ "\n第3報" }] :=
  sequence_monotonicity recB1 recB2 recB3 [] []
    (Or.inl rfl) rfl rfl rfl rfl rfl
    (by simp) (by simp) (by decide) (by simp) (by decide) (by decide)
